import Mathlib

/-!
Shallow embedding of the app_config repository: the configuration factory
(src/config.rs), the providers (src/providers/aws.rs, param_store.rs,
mock.rs) and the hook pipeline (src/hooks, src/main.rs), together with
proofs about the claims of the specification.
-/

namespace AppCfg

/-- Exit codes from the exitcode crate (BSD sysexits) used by the source. -/
def exitUNAVAILABLE : Nat := 69

/-- Exit code SOFTWARE from the exitcode crate. -/
def exitSOFTWARE : Nat := 70

/-- Exit code OSFILE from the exitcode crate. -/
def exitOSFILE : Nat := 72

/-- Exit code CONFIG from the exitcode crate. -/
def exitCONFIG : Nat := 78

/-- Outcome of running a fragment of the program: a returned value, a
returned error value (an eyre or rusqlite error, carried as its message),
a process termination via std process exit with an exit code and the
message printed to stderr just before it, or a Rust panic (an unwrap or
expect on a missing value). -/
inductive Outcome (α : Type) where
  | ok : α → Outcome α
  | err : String → Outcome α
  | exit : Nat → String → Outcome α
  | panic : Outcome α
deriving Repr, DecidableEq

/-- True exactly when the outcome is a returned error value. -/
def Outcome.isErr {α : Type} : Outcome α → Bool
  | .err _ => true
  | _ => false

/-- The source data formats of the Template hook (template.rs, DataType). -/
inductive DataType where
  | YAML
  | JSON
  | TOML
deriving Repr, DecidableEq

/-- Raw value of one section of the toml document.  Serde deserialization
of a raw section into one of the typed Conf records succeeds exactly when
the section has the shape (field names) that record declares; the
constructors below enumerate those shapes, plus a constructor for any
other shape. -/
inductive RawSection where
  | mockS (data : String)
  | awsS (application environment configuration client_id : String)
      (state_file : Option String)
  | templateS (file : String) (source_type : DataType) (out_file : Option String)
  | fileS (outfile : String)
  | rawS
  | commandS (command : String) (pipe_data : Option Bool)
  | otherS
deriving Repr, DecidableEq

/-- MockConf from providers/mock.rs. -/
structure MockConf where
  data : String
deriving Repr, DecidableEq

/-- AWSConf from providers/aws.rs. -/
structure AWSConf where
  application : String
  environment : String
  configuration : String
  client_id : String
  state_file : Option String
deriving Repr, DecidableEq

/-- TemplateConf from hooks/template.rs. -/
structure TemplateConf where
  file : String
  source_type : DataType
  out_file : Option String
deriving Repr, DecidableEq

/-- FileConf from hooks/file.rs. -/
structure FileConf where
  outfile : String
deriving Repr, DecidableEq

/-- RawConf from hooks/raw.rs (it has no fields). -/
structure RawConf where
deriving Repr, DecidableEq

/-- CommandConf from hooks/command.rs. -/
structure CommandConf where
  command : String
  pipe_data : Option Bool
deriving Repr, DecidableEq

/-- Serde try_into of a raw section into MockConf. -/
def MockConf.tryInto : RawSection → Option MockConf
  | .mockS d => some ⟨d⟩
  | _ => none

/-- Serde try_into of a raw section into AWSConf. -/
def AWSConf.tryInto : RawSection → Option AWSConf
  | .awsS a e c i sf => some ⟨a, e, c, i, sf⟩
  | _ => none

/-- Serde try_into of a raw section into TemplateConf. -/
def TemplateConf.tryInto : RawSection → Option TemplateConf
  | .templateS f st of => some ⟨f, st, of⟩
  | _ => none

/-- Serde try_into of a raw section into FileConf. -/
def FileConf.tryInto : RawSection → Option FileConf
  | .fileS o => some ⟨o⟩
  | _ => none

/-- Serde try_into of a raw section into RawConf. -/
def RawConf.tryInto : RawSection → Option RawConf
  | .rawS => some ⟨⟩
  | _ => none

/-- Serde try_into of a raw section into CommandConf. -/
def CommandConf.tryInto : RawSection → Option CommandConf
  | .commandS c p => some ⟨c, p⟩
  | _ => none

/-- Runtime Provider entity built by the factory, one constructor per
variant wired into config.rs (mock and aws). -/
inductive Provider where
  | mock (data : String)
  | aws (application environment configuration client_id : String)
      (state_file : Option String)
deriving Repr, DecidableEq

/-- Section name of a provider variant. -/
def providerKind : Provider → String
  | .mock _ => "mock"
  | .aws _ _ _ _ _ => "aws"

/-- MockConf convert (providers/mock.rs): builds the Mock provider. -/
def MockConf.convert (c : MockConf) : Provider := .mock c.data

/-- Environment for AWS provider construction: whether opening the named
state file succeeds, whether opening the in-memory store succeeds, and
whether the create_cache and pull_latest_version steps succeed. -/
structure StoreInitEnv where
  openOk : String → Bool
  openMemOk : Bool
  createCacheOk : Bool
  pullVersionOk : Bool

/-- AWS new (providers/aws.rs): opens the sqlite store, using the named
state file when one is configured and an in-memory store otherwise (a
failure to open the named file terminates with OSFILE, a failure to open
the in-memory store terminates with SOFTWARE), then sets up the cache
table with create_cache and reads the cached version with
pull_latest_version (a failure of either terminates with SOFTWARE); only
then is the provider built. -/
def AWS.new (application environment configuration client_id : String)
    (state_file : Option String) (store : StoreInitEnv) : Outcome Provider :=
  match state_file with
  | none =>
    if store.openMemOk = false then
      .exit exitSOFTWARE "Error, unable to open in-memory db"
    else if store.createCacheOk = false then
      .exit exitSOFTWARE "Error, unable to create cache"
    else if store.pullVersionOk = false then
      .exit exitSOFTWARE "Error, unable to query cache"
    else
      .ok (.aws application environment configuration client_id none)
  | some file_name =>
    if store.openOk file_name = false then
      .exit exitOSFILE ("Error, unable to open state file " ++ file_name)
    else if store.createCacheOk = false then
      .exit exitSOFTWARE "Error, unable to create cache"
    else if store.pullVersionOk = false then
      .exit exitSOFTWARE "Error, unable to query cache"
    else
      .ok (.aws application environment configuration client_id (some file_name))

/-- AWSConf convert (providers/aws.rs): builds the AWS provider through
AWS new, which initializes the backing store and can terminate the
process. -/
def AWSConf.convert (c : AWSConf) (store : StoreInitEnv) : Outcome Provider :=
  AWS.new c.application c.environment c.configuration c.client_id c.state_file store

/-- True exactly when every store-initialization step of AWS new succeeds
for the given state file setting. -/
def storeInitOk (sf : Option String) (store : StoreInitEnv) : Bool :=
  (match sf with
   | none => store.openMemOk
   | some f => store.openOk f)
    && store.createCacheOk && store.pullVersionOk

/-- Runtime Hook entity built by the factory, one constructor per variant
wired into config.rs. The template hook stores the already loaded template
body, as Template new does. -/
inductive Hook where
  | template (tpl : String) (source_type : DataType) (out_file : Option String)
  | file (outfile : String)
  | raw
  | command (command : String) (pipe_data : Bool)
deriving Repr, DecidableEq

/-- Section name of a hook variant. -/
def hookKind : Hook → String
  | .template _ _ _ => "template"
  | .file _ => "file"
  | .raw => "raw"
  | .command _ _ => "command"

/-- Environment for hook construction: the shellexpand tilde expansion and
the filesystem read used by TemplateConf convert to load the template body. -/
structure ConvEnv where
  tilde : String → String
  readFile : String → Option String

/-- TemplateConf convert (hooks/template.rs): tilde-expands the template
path, reads the template body (terminating with OSFILE when the file can
not be read) and builds the Template hook. -/
def TemplateConf.convert (env : ConvEnv) (c : TemplateConf) : Outcome Hook :=
  match env.readFile (env.tilde c.file) with
  | none => .exit exitOSFILE ("Could not open " ++ c.file)
  | some body => .ok (.template body c.source_type c.out_file)

/-- FileConf convert (hooks/file.rs): File new tilde-expands the path. -/
def FileConf.convert (env : ConvEnv) (c : FileConf) : Hook :=
  .file (env.tilde c.outfile)

/-- RawConf convert (hooks/raw.rs). -/
def RawConf.convert (_c : RawConf) : Hook := .raw

/-- CommandConf convert (hooks/command.rs): a missing pipe_data defaults
to false. -/
def CommandConf.convert (c : CommandConf) : Hook :=
  .command c.command (c.pipe_data.getD false)

/-- Modelled from the spec: the parsed configuration document.  The crate
manifest selecting the toml crate feature set is not under src, so the
iteration order of the parsed tables is modelled from the spec, which
requires that insertion order in the source document is preserved through
parsing (corroborated by the repository test test_get_hooks, which only
passes with an order-preserving table).  Each top-level section is an
association list of key and raw section value, listed in document order;
a missing section is none. -/
structure TomlDoc where
  providers : Option (List (String × RawSection))
  hooks : Option (List (String × RawSection))

/-- True exactly when the key names a hook variant known to the
parse_hooks invocation in config.rs get_hooks. -/
def isKnownHookKey (k : String) : Bool :=
  k = "template" || k = "file" || k = "raw" || k = "command"

/-- True exactly when the key names a provider variant known to the
parse_providers invocation in config.rs get_provider. -/
def isKnownProviderKey (k : String) : Bool :=
  k = "mock" || k = "aws"

/-- One turn of the loop body generated by the parse_hooks macro for a
single key of the hooks table: when the key matches a known hook section
name, the raw section is deserialized into that section's Conf record
(a failure terminating with CONFIG via config_err) and converted into the
runtime hook; an unmatched key produces none and is skipped. -/
def parseHookSection (env : ConvEnv) (k : String) (raw : RawSection) :
    Option (Outcome Hook) :=
  if k = "template" then
    some (match TemplateConf.tryInto raw with
      | none => .exit exitCONFIG "Could not parse template config"
      | some c => c.convert env)
  else if k = "file" then
    some (match FileConf.tryInto raw with
      | none => .exit exitCONFIG "Could not parse file config"
      | some c => .ok (c.convert env))
  else if k = "raw" then
    some (match RawConf.tryInto raw with
      | none => .exit exitCONFIG "Could not parse raw config"
      | some c => .ok c.convert)
  else if k = "command" then
    some (match CommandConf.tryInto raw with
      | none => .exit exitCONFIG "Could not parse command config"
      | some c => .ok c.convert)
  else none

/-- The loop of the parse_hooks macro: iterates the keys of the hooks
table in document order, pushing each successfully converted hook; any
parse or conversion failure aborts the whole load. -/
def hooksLoop (env : ConvEnv) : List (String × RawSection) → Outcome (List Hook)
  | [] => .ok []
  | (k, raw) :: rest =>
    match parseHookSection env k raw with
    | none => hooksLoop env rest
    | some (.ok h) =>
      match hooksLoop env rest with
      | .ok hs => .ok (h :: hs)
      | .err e => .err e
      | .exit c m => .exit c m
      | .panic => .panic
    | some (.err e) => .err e
    | some (.exit c m) => .exit c m
    | some .panic => .panic

/-- Config get_hooks (config.rs): a missing hooks section yields the empty
list; otherwise the parse_hooks loop runs over the section keys in
document order. -/
def Config.get_hooks (env : ConvEnv) (doc : TomlDoc) : Outcome (List Hook) :=
  match doc.hooks with
  | none => .ok []
  | some secs => hooksLoop env secs

/-- Config get_provider (config.rs): validates that the providers section
exists and holds exactly one entry (terminating with CONFIG otherwise),
then dispatches the single key through the parse_providers macro chain:
mock, then aws, then the no-valid-provider fallthrough.  Converting an aws
entry runs AWS new, whose store initialization can terminate the process.
No network access happens here: the outcome is a function of the document
and of the local store environment alone. -/
def Config.get_provider (store : StoreInitEnv) (doc : TomlDoc) : Outcome Provider :=
  match doc.providers with
  | none => .exit exitCONFIG "Error, configuation must include a backend provider"
  | some provs =>
    if provs.length ≠ 1 then
      .exit exitCONFIG "Error, configuation must include only one backend provider"
    else
      match provs.getLast? with
      | none => .panic
      | some (ptype, raw) =>
        if ptype = "mock" then
          match MockConf.tryInto raw with
          | none => .exit exitCONFIG "Could not parse mock config"
          | some c => .ok c.convert
        else if ptype = "aws" then
          match AWSConf.tryInto raw with
          | none => .exit exitCONFIG "Could not parse aws config"
          | some c => c.convert store
        else
          .exit exitCONFIG "Error, no valid providers found"

/-- The cached snapshot row of the AWS provider (the single row of the
appConfig sqlite table: version and data). -/
structure AWSCache where
  version : Nat
  data : String
deriving Repr, DecidableEq

/-- What the AWS AppConfig remote returns to a GetConfiguration call:
either a network or auth failure of the call itself, or a response with an
optional configuration_version (already parsed to a number, as poll does
with from_str_radix) and optional content bytes. -/
inductive AWSRemote where
  | netFail
  | resp (configuration_version : Option Nat) (content : Option String)
deriving Repr, DecidableEq

/-- Whether the sqlite write performed by update_cache succeeds during
this poll. -/
structure StoreEnv where
  writeOk : Bool
deriving Repr, DecidableEq

/-- AWS poll (providers/aws.rs).  get_config terminates the process with
UNAVAILABLE on a network or auth failure; a response with no
configuration_version also terminates with UNAVAILABLE; a version equal
to the cached current_version returns none with the cache untouched;
otherwise the content is unwrapped (a missing content is a panic), the
cache update is attempted and a failure of it is only logged, and the new
payload is returned.  Returns the poll outcome together with the cache
row after the call. -/
def AWS.poll (current_version : Nat) (cache : AWSCache) (remote : AWSRemote)
    (store : StoreEnv) : Outcome (Option String) × AWSCache :=
  match remote with
  | .netFail =>
    (.exit exitUNAVAILABLE "An error occurred when trying to fetch configuration",
      cache)
  | .resp none _ => (.exit exitUNAVAILABLE "An error occurred - no data received.", cache)
  | .resp (some version) content =>
    if current_version = version then
      (.ok none, cache)
    else
      match content with
      | none => (.panic, cache)
      | some data =>
        if store.writeOk then (.ok (some data), ⟨version, data⟩)
        else (.ok (some data), cache)

/-- AWS query (providers/aws.rs): reads the data column of the cache row,
never contacting the remote source. -/
def AWS.query (cache : AWSCache) : Outcome String := .ok cache.data

/-- What the SSM Parameter Store remote returns to a GetParameters call:
either a network or auth failure of the call itself, or a response with an
optional list of parameters, each with an optional value. -/
inductive PSRemote where
  | netFail
  | resp (parameters : Option (List (Option String)))
deriving Repr, DecidableEq

/-- get_params (providers/param_store.rs): a network or auth failure of
the call terminates the process with UNAVAILABLE; a response without a
parameters list, with an empty list (pop yields none), or whose last
parameter has no value is a returned error; otherwise the value is
returned. -/
def get_params (remote : PSRemote) : Outcome String :=
  match remote with
  | .netFail => .exit exitUNAVAILABLE "Error when fetching parameter"
  | .resp none => .err "AWS Param Store returned no data"
  | .resp (some ps) =>
    match ps.getLast? with
    | none => .err "AWS Param Store: parameter not found"
    | some none => .err "AWS Param Store value empty"
    | some (some v) => .ok v

/-- ParamStore poll (providers/param_store.rs).  Fetches the value via
get_params, compares it with the cached data, returns none when equal;
on a change it updates the cache, where a write failure is propagated
with the question mark operator, failing the poll and leaving the cache
unchanged.  Returns the poll outcome together with the cached data after
the call. -/
def ParamStore.poll (cache : String) (remote : PSRemote) (store : StoreEnv) :
    Outcome (Option String) × String :=
  match get_params remote with
  | .ok value =>
    if value = cache then (.ok none, cache)
    else if store.writeOk then (.ok (some value), value)
    else (.err "cache write failed", cache)
  | .err e => (.err e, cache)
  | .exit c m => (.exit c m, cache)
  | .panic => (.panic, cache)

/-- ParamStore query (providers/param_store.rs): returns the cached data
without contacting the remote source. -/
def ParamStore.query (cache : String) : Outcome String := .ok cache

/-- Mock poll (providers/mock.rs): always returns the stored data. -/
def Mock.poll (data : String) : Outcome (Option String) := .ok (some data)

/-- Mock query (providers/mock.rs): returns the stored data. -/
def Mock.query (data : String) : Outcome String := .ok data

/-- Environment of one execution of the Command hook: whether the child
process spawn (or the output call) succeeds, whether the stdin write
succeeds, whether waiting for the child succeeds, and whether the child
exit status is success (zero). -/
structure CmdExec where
  spawnOk : Bool
  writeOk : Bool
  waitOk : Bool
  statusSuccess : Bool
deriving Repr, DecidableEq

/-- Command run (hooks/command.rs).  In the unpiped mode the output call
can fail with a returned io error; in the piped mode a spawn failure is
an expect panic, and the stdin write or the wait can fail with a returned
io error.  In both modes a child exit status that is not success prints
the command to stderr and terminates the process with SOFTWARE; it is not
returned as an error value. -/
def Command.run (command : String) (pipe_data : Bool) (ex : CmdExec) :
    Outcome Unit :=
  match pipe_data with
  | false =>
    if ex.spawnOk = false then .err "io error"
    else if ex.statusSuccess = false then
      .exit exitSOFTWARE ("Failed to execute cmd: " ++ command)
    else .ok ()
  | true =>
    if ex.spawnOk = false then .panic
    else if ex.writeOk = false then .err "io error"
    else if ex.waitOk = false then .err "io error"
    else if ex.statusSuccess = false then
      .exit exitSOFTWARE ("Failed to execute cmd: " ++ command)
    else .ok ()

/-- The hook loop of check_for_updates (main.rs): runs each hook in
declared order on the payload, wrapping a returned hook error and
stopping at the first failure.  The argument list holds the outcome of
each hook's run in this invocation's environment, in declared order; the
result pairs the number of hooks whose run was actually invoked (the
executed prefix, whose side effects persist) with the final outcome. -/
def check_hook_loop : List (Outcome Unit) → Nat × Outcome Unit
  | [] => (0, .ok ())
  | o :: rest =>
    match o with
    | .ok _ =>
      let r := check_hook_loop rest
      (r.1 + 1, r.2)
    | .err e => (1, .err ("Error running hook: " ++ e))
    | .exit c m => (1, .exit c m)
    | .panic => (1, .panic)

/-- check_for_updates (main.rs) after the configuration is loaded: polls
the provider; when the poll yields a payload the hooks run in declared
order on it, otherwise no hook runs; a poll failure is propagated with no
hook running.  hookRuns gives, for a payload, the outcomes of the
configured hooks on that payload in declared order. -/
def check_for_updates (pollResult : Outcome (Option String))
    (hookRuns : String → List (Outcome Unit)) : Nat × Outcome Unit :=
  match pollResult with
  | .ok none => (0, .ok ())
  | .ok (some data) => check_hook_loop (hookRuns data)
  | .err e => (0, .err e)
  | .exit c m => (0, .exit c m)
  | .panic => (0, .panic)

/-- A hook table key parses to nothing exactly when it matches no known
hook section name. -/
theorem parseHookSection_none_iff (env : ConvEnv) (k : String) (raw : RawSection) :
    parseHookSection env k raw = none ↔ isKnownHookKey k = false := by
  unfold parseHookSection isKnownHookKey
  by_cases h1 : k = "template" <;> by_cases h2 : k = "file" <;>
    by_cases h3 : k = "raw" <;> by_cases h4 : k = "command" <;>
      simp [h1, h2, h3, h4]

/-- A hook successfully built from a table key is of the variant that key
names. -/
theorem parseHookSection_ok_kind (env : ConvEnv) (k : String) (raw : RawSection)
    (h : Hook) (hp : parseHookSection env k raw = some (Outcome.ok h)) :
    hookKind h = k := by
  by_cases h1 : k = "template"
  · subst h1
    cases raw <;>
      simp [parseHookSection, TemplateConf.tryInto, TemplateConf.convert] at hp
    rename_i f st of
    cases hrf : env.readFile (env.tilde f) <;> rw [hrf] at hp <;> simp at hp
    subst hp
    rfl
  · by_cases h2 : k = "file"
    · subst h2
      cases raw <;>
        simp [parseHookSection, FileConf.tryInto, FileConf.convert] at hp
      subst hp
      rfl
    · by_cases h3 : k = "raw"
      · subst h3
        cases raw <;>
          simp [parseHookSection, RawConf.tryInto, RawConf.convert] at hp
        subst hp
        rfl
      · by_cases h4 : k = "command"
        · subst h4
          cases raw <;>
            simp [parseHookSection, CommandConf.tryInto, CommandConf.convert] at hp
          subst hp
          rfl
        · simp [parseHookSection, h1, h2, h3, h4] at hp

/-- Unfolding step of the hook loop at an unknown key. -/
theorem hooksLoop_cons_none (env : ConvEnv) (k : String) (raw : RawSection)
    (rest : List (String × RawSection))
    (hp : parseHookSection env k raw = none) :
    hooksLoop env ((k, raw) :: rest) = hooksLoop env rest := by
  simp [hooksLoop, hp]

/-- Unfolding step of the hook loop at a key whose hook builds. -/
theorem hooksLoop_cons_ok (env : ConvEnv) (k : String) (raw : RawSection)
    (rest : List (String × RawSection)) (h0 : Hook)
    (hp : parseHookSection env k raw = some (Outcome.ok h0)) :
    hooksLoop env ((k, raw) :: rest) =
      match hooksLoop env rest with
      | Outcome.ok hs => Outcome.ok (h0 :: hs)
      | Outcome.err e => Outcome.err e
      | Outcome.exit c m => Outcome.exit c m
      | Outcome.panic => Outcome.panic := by
  simp [hooksLoop, hp]

/-- Unfolding step of the hook loop at a key whose section fails with a
returned error. -/
theorem hooksLoop_cons_err (env : ConvEnv) (k : String) (raw : RawSection)
    (rest : List (String × RawSection)) (e : String)
    (hp : parseHookSection env k raw = some (Outcome.err e)) :
    hooksLoop env ((k, raw) :: rest) = Outcome.err e := by
  simp [hooksLoop, hp]

/-- Unfolding step of the hook loop at a key whose section terminates the
process. -/
theorem hooksLoop_cons_exit (env : ConvEnv) (k : String) (raw : RawSection)
    (rest : List (String × RawSection)) (c : Nat) (m : String)
    (hp : parseHookSection env k raw = some (Outcome.exit c m)) :
    hooksLoop env ((k, raw) :: rest) = Outcome.exit c m := by
  simp [hooksLoop, hp]

/-- Unfolding step of the hook loop at a key whose section panics. -/
theorem hooksLoop_cons_panic (env : ConvEnv) (k : String) (raw : RawSection)
    (rest : List (String × RawSection))
    (hp : parseHookSection env k raw = some Outcome.panic) :
    hooksLoop env ((k, raw) :: rest) = Outcome.panic := by
  simp [hooksLoop, hp]

/-- When the hook loop succeeds, the variants of the produced hooks match,
in order, the known section keys of the table in document order. -/
theorem hooksLoop_ok_kinds (env : ConvEnv) :
    ∀ (secs : List (String × RawSection)) (hs : List Hook),
      hooksLoop env secs = Outcome.ok hs →
      hs.map hookKind = (secs.filter fun p => isKnownHookKey p.1).map Prod.fst := by
  intro secs
  induction secs with
  | nil =>
    intro hs h
    simp only [hooksLoop, Outcome.ok.injEq] at h
    subst h
    simp
  | cons head rest ih =>
    obtain ⟨k, raw⟩ := head
    intro hs h
    cases hp : parseHookSection env k raw with
    | none =>
      rw [hooksLoop_cons_none env k raw rest hp] at h
      have hk : isKnownHookKey k = false := (parseHookSection_none_iff env k raw).mp hp
      simp only [List.filter_cons, hk, Bool.false_eq_true, if_false]
      exact ih hs h
    | some o =>
      cases o with
      | ok h0 =>
        rw [hooksLoop_cons_ok env k raw rest h0 hp] at h
        cases hrest : hooksLoop env rest with
        | ok hs2 =>
          rw [hrest] at h
          simp only [Outcome.ok.injEq] at h
          subst h
          have hkind := parseHookSection_ok_kind env k raw h0 hp
          have hknown : isKnownHookKey k = true := by
            cases hq : isKnownHookKey k
            · rw [(parseHookSection_none_iff env k raw).mpr hq] at hp
              cases hp
            · rfl
          have hrec := ih hs2 hrest
          simp [List.filter_cons, hknown, hkind, hrec]
        | err e => rw [hrest] at h; simp at h
        | exit c m => rw [hrest] at h; simp at h
        | panic => rw [hrest] at h; simp at h
      | err e => rw [hooksLoop_cons_err env k raw rest e hp] at h; cases h
      | exit c m => rw [hooksLoop_cons_exit env k raw rest c m hp] at h; cases h
      | panic => rw [hooksLoop_cons_panic env k raw rest hp] at h; cases h

/-- The hook loop ignores the sections whose key matches no known hook
variant: it behaves the same on the table restricted to known keys. -/
theorem hooksLoop_filter_known (env : ConvEnv) (secs : List (String × RawSection)) :
    hooksLoop env secs = hooksLoop env (secs.filter fun p => isKnownHookKey p.1) := by
  induction secs with
  | nil => rfl
  | cons head rest ih =>
    obtain ⟨k, raw⟩ := head
    cases hq : isKnownHookKey k with
    | false =>
      have hp : parseHookSection env k raw = none :=
        (parseHookSection_none_iff env k raw).mpr hq
      have hfc : List.filter (fun p => isKnownHookKey p.1) ((k, raw) :: rest)
          = List.filter (fun p => isKnownHookKey p.1) rest := by
        simp [List.filter_cons, hq]
      rw [hfc, hooksLoop_cons_none env k raw rest hp]
      exact ih
    | true =>
      have hfc : List.filter (fun p => isKnownHookKey p.1) ((k, raw) :: rest)
          = (k, raw) :: List.filter (fun p => isKnownHookKey p.1) rest := by
        simp [List.filter_cons, hq]
      rw [hfc]
      cases hps : parseHookSection env k raw with
      | none =>
        rw [(parseHookSection_none_iff env k raw).mp hps] at hq
        cases hq
      | some o =>
        cases o with
        | ok h0 =>
          rw [hooksLoop_cons_ok env k raw rest h0 hps,
              hooksLoop_cons_ok env k raw _ h0 hps, ih]
        | err e =>
          rw [hooksLoop_cons_err env k raw rest e hps,
              hooksLoop_cons_err env k raw _ e hps]
        | exit c m =>
          rw [hooksLoop_cons_exit env k raw rest c m hps,
              hooksLoop_cons_exit env k raw _ c m hps]
        | panic =>
          rw [hooksLoop_cons_panic env k raw rest hps,
              hooksLoop_cons_panic env k raw _ hps]

/-- Identity conversion environment used for concrete evaluations. -/
def envId : ConvEnv := ⟨fun s => s, fun _ => some "TPLBODY"⟩

/-- Concrete hook table used as a factory witness: a known section, an
unknown section, another known section. -/
def secsW1 : List (String × RawSection) :=
  [("command", RawSection.commandS "echo" (some true)),
   ("junk", RawSection.otherS),
   ("file", RawSection.fileS "out.txt")]

/-- Concrete document wrapping secsW1. -/
def docW1 : TomlDoc := ⟨none, some secsW1⟩

/-- C1: for every configuration document, the Hook list produced by
Config get_hooks lists the hooks in the same order as the hook sections
appear in the source document (the unknown sections being skipped),
regardless of how many hook types are declared. -/
theorem get_hooks_preserves_document_order (env : ConvEnv) (doc : TomlDoc)
    (secs : List (String × RawSection)) (hs : List Hook)
    (hdoc : doc.hooks = some secs)
    (hok : Config.get_hooks env doc = Outcome.ok hs) :
    hs.map hookKind = (secs.filter fun p => isKnownHookKey p.1).map Prod.fst := by
  unfold Config.get_hooks at hok
  rw [hdoc] at hok
  exact hooksLoop_ok_kinds env secs hs hok

/-- Witness for C1 at a concrete three-section document. -/
theorem get_hooks_preserves_document_order_witness :
    ([Hook.command "echo" true, Hook.file "out.txt"] : List Hook).map hookKind
      = (secsW1.filter fun p => isKnownHookKey p.1).map Prod.fst :=
  get_hooks_preserves_document_order envId docW1 secsW1
    [Hook.command "echo" true, Hook.file "out.txt"] rfl rfl

/-- C9: a document without a hooks section yields the empty hook list,
not an error; and hook table entries whose key matches no known hook
variant are silently skipped, contributing nothing to the list. -/
theorem hooks_optional_unknown_skipped (env : ConvEnv) (doc : TomlDoc)
    (secs : List (String × RawSection)) :
    (doc.hooks = none → Config.get_hooks env doc = Outcome.ok [])
  ∧ hooksLoop env secs = hooksLoop env (secs.filter fun p => isKnownHookKey p.1) := by
  constructor
  · intro h
    unfold Config.get_hooks
    rw [h]
  · exact hooksLoop_filter_known env secs

/-- Witness for C9 at a concrete document and table. -/
theorem hooks_optional_unknown_skipped_witness :
    Config.get_hooks envId ⟨none, none⟩ = Outcome.ok []
  ∧ hooksLoop envId [("junk", RawSection.otherS)]
      = hooksLoop envId
          ([("junk", RawSection.otherS)].filter fun p => isKnownHookKey p.1) :=
  ⟨(hooks_optional_unknown_skipped envId ⟨none, none⟩ []).1 rfl,
   (hooks_optional_unknown_skipped envId ⟨none, none⟩
      [("junk", RawSection.otherS)]).2⟩

/-- C3: a poll whose remote identity equals the cached identity returns
no payload and leaves the cached snapshot record unchanged, for both the
AWS provider (version and data) and the ParamStore provider (data). -/
theorem poll_no_change_no_rewrite :
    (∀ (cv : Nat) (cache : AWSCache) (content : Option String) (store : StoreEnv),
        AWS.poll cv cache (AWSRemote.resp (some cv) content) store
          = (Outcome.ok none, cache))
  ∧ (∀ (cache : String) (remote : PSRemote) (store : StoreEnv),
        get_params remote = Outcome.ok cache →
        ParamStore.poll cache remote store = (Outcome.ok none, cache)) := by
  constructor
  · intro cv cache content store
    simp [AWS.poll]
  · intro cache remote store h
    simp [ParamStore.poll, h]

/-- Witness for C3 at concrete caches and responses. -/
theorem poll_no_change_no_rewrite_witness :
    AWS.poll 3 ⟨3, "x"⟩ (AWSRemote.resp (some 3) (some "y")) ⟨true⟩
      = (Outcome.ok none, (⟨3, "x"⟩ : AWSCache))
  ∧ ParamStore.poll "v" (PSRemote.resp (some [some "v"])) ⟨true⟩
      = (Outcome.ok none, "v") :=
  ⟨poll_no_change_no_rewrite.1 3 ⟨3, "x"⟩ (some "y") ⟨true⟩,
   poll_no_change_no_rewrite.2 "v" (PSRemote.resp (some [some "v"])) ⟨true⟩ rfl⟩

/-- C10: the Mock provider always polls its stored data as a payload,
never the no-change case, its query returns the same data, and therefore
a check operation against a Mock provider reaches the hook pipeline on
every invocation. -/
theorem mock_always_polls_payload (d : String)
    (hookRuns : String → List (Outcome Unit)) :
    Mock.poll d = Outcome.ok (some d)
  ∧ Mock.query d = Outcome.ok d
  ∧ check_for_updates (Mock.poll d) hookRuns = check_hook_loop (hookRuns d) :=
  ⟨rfl, rfl, rfl⟩

/-- A provider successfully built by AWS new is the aws variant with the
configured identity fields. -/
theorem AWS.new_ok (a e cfg i : String) (sf : Option String)
    (store : StoreInitEnv) (p : Provider)
    (h : AWS.new a e cfg i sf store = Outcome.ok p) :
    p = Provider.aws a e cfg i sf := by
  cases sf with
  | none =>
    cases hm : store.openMemOk <;> cases hc : store.createCacheOk <;>
      cases hpv : store.pullVersionOk <;>
      simp [AWS.new, hm, hc, hpv] at h <;>
      exact h.symm
  | some f =>
    cases ho : store.openOk f <;> cases hc : store.createCacheOk <;>
      cases hpv : store.pullVersionOk <;>
      simp [AWS.new, ho, hc, hpv] at h <;>
      exact h.symm

/-- C2: the factory builds exactly one provider: a missing providers
section, or a providers section whose number of entries differs from one,
terminates with the CONFIG exit status before any network access (the
outcome is a function of the document and the local store environment
alone); whenever a single entry yields a provider, it is of the variant
its key names and no other; a single unrecognized entry terminates with
CONFIG; a single parsed mock entry yields the mock provider; a single
parsed aws entry behaves exactly as AWS new on its settings: it yields
the aws provider when store initialization succeeds, and terminates with
OSFILE when the configured state file can not be opened. -/
theorem get_provider_exactly_one (store : StoreInitEnv) (doc : TomlDoc) :
    (doc.providers = none →
      Config.get_provider store doc
        = Outcome.exit exitCONFIG
            "Error, configuation must include a backend provider")
  ∧ (∀ provs, doc.providers = some provs → provs.length ≠ 1 →
      Config.get_provider store doc
        = Outcome.exit exitCONFIG
            "Error, configuation must include only one backend provider")
  ∧ (∀ k raw p, doc.providers = some [(k, raw)] →
      Config.get_provider store doc = Outcome.ok p →
      providerKind p = k ∧ isKnownProviderKey k = true)
  ∧ (∀ k raw, doc.providers = some [(k, raw)] → isKnownProviderKey k = false →
      Config.get_provider store doc
        = Outcome.exit exitCONFIG "Error, no valid providers found")
  ∧ (∀ raw c, doc.providers = some [("mock", raw)] →
      MockConf.tryInto raw = some c →
      Config.get_provider store doc = Outcome.ok (Provider.mock c.data))
  ∧ (∀ raw c, doc.providers = some [("aws", raw)] →
      AWSConf.tryInto raw = some c →
      Config.get_provider store doc = c.convert store)
  ∧ (∀ raw c, doc.providers = some [("aws", raw)] →
      AWSConf.tryInto raw = some c → storeInitOk c.state_file store = true →
      Config.get_provider store doc
        = Outcome.ok (Provider.aws c.application c.environment c.configuration
            c.client_id c.state_file))
  ∧ (∀ raw c f, doc.providers = some [("aws", raw)] →
      AWSConf.tryInto raw = some c → c.state_file = some f →
      store.openOk f = false →
      Config.get_provider store doc
        = Outcome.exit exitOSFILE ("Error, unable to open state file " ++ f)) := by
  refine ⟨?_, ?_, ?_, ?_, ?_, ?_, ?_, ?_⟩
  · intro h
    simp [Config.get_provider, h]
  · intro provs hp hlen
    simp [Config.get_provider, hp, hlen]
  · intro k raw p hp hok
    simp [Config.get_provider, hp,
      show ([(k, raw)]).getLast? = some (k, raw) from rfl] at hok
    by_cases h1 : k = "mock"
    · subst h1
      simp at hok
      cases hm : MockConf.tryInto raw with
      | none => rw [hm] at hok; simp at hok
      | some c =>
        rw [hm] at hok
        simp at hok
        subst hok
        exact ⟨rfl, rfl⟩
    · by_cases h2 : k = "aws"
      · subst h2
        simp [h1] at hok
        cases ha : AWSConf.tryInto raw with
        | none => rw [ha] at hok; simp at hok
        | some c =>
          rw [ha] at hok
          simp [AWSConf.convert] at hok
          have hv := AWS.new_ok c.application c.environment c.configuration
            c.client_id c.state_file store p hok
          subst hv
          exact ⟨rfl, rfl⟩
      · simp [h1, h2] at hok
  · intro k raw hk hunk
    have h1 : ¬ k = "mock" := by
      intro h
      subst h
      simp [isKnownProviderKey] at hunk
    have h2 : ¬ k = "aws" := by
      intro h
      subst h
      simp [isKnownProviderKey] at hunk
    simp [Config.get_provider, hk,
      show ([(k, raw)]).getLast? = some (k, raw) from rfl, h1, h2]
  · intro raw c hp hm
    simp [Config.get_provider, hp,
      show ([("mock", raw)]).getLast? = some ("mock", raw) from rfl, hm,
      MockConf.convert]
  · intro raw c hp ha
    simp [Config.get_provider, hp,
      show ([("aws", raw)]).getLast? = some ("aws", raw) from rfl, ha]
  · intro raw c hp ha hst
    simp [Config.get_provider, hp,
      show ([("aws", raw)]).getLast? = some ("aws", raw) from rfl, ha,
      AWSConf.convert]
    unfold storeInitOk at hst
    cases hsf : c.state_file with
    | none =>
      rw [hsf] at hst
      simp only [Bool.and_eq_true] at hst
      obtain ⟨⟨h1, h2⟩, h3⟩ := hst
      simp [AWS.new, h1, h2, h3]
    | some f =>
      rw [hsf] at hst
      simp only [Bool.and_eq_true] at hst
      obtain ⟨⟨h1, h2⟩, h3⟩ := hst
      simp [AWS.new, h1, h2, h3]
  · intro raw c f hp ha hsf ho
    simp [Config.get_provider, hp,
      show ([("aws", raw)]).getLast? = some ("aws", raw) from rfl, ha,
      AWSConf.convert]
    rw [hsf]
    simp [AWS.new, ho]

/-- Store environment where every initialization step succeeds. -/
def storeAllOk : StoreInitEnv := ⟨fun _ => true, true, true, true⟩

/-- Store environment where no state file can be opened. -/
def storeBadFile : StoreInitEnv := ⟨fun _ => false, true, true, true⟩

/-- Witness for C2 at concrete documents and store environments for each
case. -/
theorem get_provider_exactly_one_witness :
    Config.get_provider storeAllOk ⟨none, none⟩
      = Outcome.exit exitCONFIG "Error, configuation must include a backend provider"
  ∧ Config.get_provider storeAllOk ⟨some [], none⟩
      = Outcome.exit exitCONFIG
          "Error, configuation must include only one backend provider"
  ∧ (providerKind (Provider.mock "d") = "mock" ∧ isKnownProviderKey "mock" = true)
  ∧ Config.get_provider storeAllOk ⟨some [("nope", RawSection.otherS)], none⟩
      = Outcome.exit exitCONFIG "Error, no valid providers found"
  ∧ Config.get_provider storeAllOk ⟨some [("mock", RawSection.mockS "d")], none⟩
      = Outcome.ok (Provider.mock "d")
  ∧ Config.get_provider storeAllOk
        ⟨some [("aws", RawSection.awsS "a" "e" "c" "i" none)], none⟩
      = AWSConf.convert ⟨"a", "e", "c", "i", none⟩ storeAllOk
  ∧ Config.get_provider storeAllOk
        ⟨some [("aws", RawSection.awsS "a" "e" "c" "i" none)], none⟩
      = Outcome.ok (Provider.aws "a" "e" "c" "i" none)
  ∧ Config.get_provider storeBadFile
        ⟨some [("aws", RawSection.awsS "a" "e" "c" "i" (some "state.db"))], none⟩
      = Outcome.exit exitOSFILE ("Error, unable to open state file " ++ "state.db") :=
  ⟨(get_provider_exactly_one storeAllOk ⟨none, none⟩).1 rfl,
   (get_provider_exactly_one storeAllOk ⟨some [], none⟩).2.1 [] rfl (by decide),
   (get_provider_exactly_one storeAllOk
      ⟨some [("mock", RawSection.mockS "d")], none⟩).2.2.1
      "mock" (RawSection.mockS "d") (Provider.mock "d") rfl rfl,
   (get_provider_exactly_one storeAllOk
      ⟨some [("nope", RawSection.otherS)], none⟩).2.2.2.1
      "nope" RawSection.otherS rfl (by decide),
   (get_provider_exactly_one storeAllOk
      ⟨some [("mock", RawSection.mockS "d")], none⟩).2.2.2.2.1
      (RawSection.mockS "d") ⟨"d"⟩ rfl rfl,
   (get_provider_exactly_one storeAllOk
      ⟨some [("aws", RawSection.awsS "a" "e" "c" "i" none)], none⟩).2.2.2.2.2.1
      (RawSection.awsS "a" "e" "c" "i" none) ⟨"a", "e", "c", "i", none⟩ rfl rfl,
   (get_provider_exactly_one storeAllOk
      ⟨some [("aws", RawSection.awsS "a" "e" "c" "i" none)], none⟩).2.2.2.2.2.2.1
      (RawSection.awsS "a" "e" "c" "i" none) ⟨"a", "e", "c", "i", none⟩ rfl rfl rfl,
   (get_provider_exactly_one storeBadFile
      ⟨some [("aws", RawSection.awsS "a" "e" "c" "i" (some "state.db"))], none⟩
      ).2.2.2.2.2.2.2
      (RawSection.awsS "a" "e" "c" "i" (some "state.db"))
      ⟨"a", "e", "c", "i", some "state.db"⟩ "state.db" rfl rfl rfl rfl⟩

/-- C4 counterexample: with the AWS provider, a poll that detects a change
succeeds and returns the new payload even when the best-effort cache write
fails, and the query performed immediately after then returns the stale
cached data, not the payload the poll returned. -/
theorem poll_query_roundtrip_cex :
    (AWS.poll 0 ⟨0, ""⟩ (AWSRemote.resp (some 1) (some "new")) ⟨false⟩).1
        = Outcome.ok (some "new")
  ∧ AWS.query (AWS.poll 0 ⟨0, ""⟩ (AWSRemote.resp (some 1) (some "new")) ⟨false⟩).2
        = Outcome.ok ""
  ∧ (Outcome.ok "" : Outcome String) ≠ Outcome.ok "new" := by
  decide

/-- C4 amended: a query performed immediately after a successful poll that
detected a change returns the payload the poll returned, provided the
best-effort cache write succeeded; for the ParamStore provider this holds
for every successful poll, since a failed cache write fails the poll. -/
theorem poll_query_roundtrip :
    (∀ (cv : Nat) (cache : AWSCache) (remote : AWSRemote) (store : StoreEnv)
        (data : String) (cache2 : AWSCache),
        store.writeOk = true →
        AWS.poll cv cache remote store = (Outcome.ok (some data), cache2) →
        AWS.query cache2 = Outcome.ok data)
  ∧ (∀ (cache : String) (remote : PSRemote) (store : StoreEnv)
        (value cache2 : String),
        ParamStore.poll cache remote store = (Outcome.ok (some value), cache2) →
        ParamStore.query cache2 = Outcome.ok value) := by
  constructor
  · intro cv cache remote store data cache2 hw hpoll
    cases remote with
    | netFail => simp [AWS.poll] at hpoll
    | resp ver content =>
      cases ver with
      | none => simp [AWS.poll] at hpoll
      | some v =>
        by_cases hcv : cv = v
        · simp [AWS.poll, hcv] at hpoll
        · cases content with
          | none => simp [AWS.poll, hcv] at hpoll
          | some d =>
            simp [AWS.poll, hcv, hw] at hpoll
            obtain ⟨hd, hc⟩ := hpoll
            subst hd
            rw [← hc]
            rfl
  · intro cache remote store value cache2 hpoll
    cases hg : get_params remote with
    | ok v0 =>
      by_cases hv : v0 = cache
      · simp [ParamStore.poll, hg, hv] at hpoll
      · cases hw : store.writeOk with
        | false => simp [ParamStore.poll, hg, hv, hw] at hpoll
        | true =>
          simp [ParamStore.poll, hg, hv, hw] at hpoll
          obtain ⟨hd, hc⟩ := hpoll
          subst hd
          rw [← hc]
          rfl
    | err e => simp [ParamStore.poll, hg] at hpoll
    | exit c m => simp [ParamStore.poll, hg] at hpoll
    | panic => simp [ParamStore.poll, hg] at hpoll

/-- Witness for the amended C4 at concrete polls. -/
theorem poll_query_roundtrip_witness :
    AWS.query ⟨1, "new"⟩ = Outcome.ok "new"
  ∧ ParamStore.query "new" = Outcome.ok "new" :=
  ⟨poll_query_roundtrip.1 0 ⟨0, ""⟩ (AWSRemote.resp (some 1) (some "new")) ⟨true⟩
      "new" ⟨1, "new"⟩ rfl rfl,
   poll_query_roundtrip.2 "old" (PSRemote.resp (some [some "new"])) ⟨true⟩
      "new" "new" rfl⟩

/-- C5 counterexample: with the ParamStore provider a cache-write failure
after a detected change is not merely logged: the poll returns an error
instead of succeeding with the new payload. -/
theorem cache_write_failure_cex :
    ParamStore.poll "" (PSRemote.resp (some [some "new"])) ⟨false⟩
        = (Outcome.err "cache write failed", "")
  ∧ (ParamStore.poll "" (PSRemote.resp (some [some "new"])) ⟨false⟩).1
        ≠ Outcome.ok (some "new") := by
  decide

/-- C5 amended: for the AWS provider a cache-write failure after a
detected change is only logged: the poll still succeeds and returns the
new payload, so hooks still run; for the ParamStore provider the same
failure makes the poll return an error, the cache staying unchanged, so
hooks do not run. -/
theorem cache_write_failure_semantics :
    (∀ (cv v : Nat) (cache : AWSCache) (data : String) (store : StoreEnv),
        store.writeOk = false → cv ≠ v →
        AWS.poll cv cache (AWSRemote.resp (some v) (some data)) store
          = (Outcome.ok (some data), cache))
  ∧ (∀ (cache : String) (remote : PSRemote) (value : String) (store : StoreEnv),
        store.writeOk = false → get_params remote = Outcome.ok value →
        value ≠ cache →
        ParamStore.poll cache remote store
          = (Outcome.err "cache write failed", cache)) := by
  constructor
  · intro cv v cache data store hw hne
    simp [AWS.poll, hne, hw]
  · intro cache remote value store hw hg hne
    simp [ParamStore.poll, hg, hne, hw]

/-- Witness for the amended C5 at concrete polls with a failing store. -/
theorem cache_write_failure_semantics_witness :
    AWS.poll 0 ⟨0, "old"⟩ (AWSRemote.resp (some 1) (some "new")) ⟨false⟩
      = (Outcome.ok (some "new"), (⟨0, "old"⟩ : AWSCache))
  ∧ ParamStore.poll "old" (PSRemote.resp (some [some "new"])) ⟨false⟩
      = (Outcome.err "cache write failed", "old") :=
  ⟨cache_write_failure_semantics.1 0 1 ⟨0, "old"⟩ "new" ⟨false⟩ rfl (by decide),
   cache_write_failure_semantics.2 "old" (PSRemote.resp (some [some "new"]))
      "new" ⟨false⟩ rfl rfl (by decide)⟩

/-- C6 counterexample: a network failure while contacting the remote
source does not make the AWS poll return an error value to its caller: it
terminates the process with the UNAVAILABLE exit status (with the cache
left unchanged). -/
theorem remote_failure_cex :
    (AWS.poll 0 ⟨0, "old"⟩ AWSRemote.netFail ⟨true⟩).1.isErr = false
  ∧ (AWS.poll 0 ⟨0, "old"⟩ AWSRemote.netFail ⟨true⟩).1
      = Outcome.exit exitUNAVAILABLE
          "An error occurred when trying to fetch configuration"
  ∧ (AWS.poll 0 ⟨0, "old"⟩ AWSRemote.netFail ⟨true⟩).2 = ⟨0, "old"⟩ := by
  decide

/-- C6 amended: a network or auth failure while contacting the remote
source terminates the process with the UNAVAILABLE exit status rather
than returning an error value from the poll, and the cached snapshot is
left unchanged by the failed poll, for both providers. -/
theorem remote_failure_exits_unavailable :
    (∀ (cv : Nat) (cache : AWSCache) (store : StoreEnv),
        AWS.poll cv cache AWSRemote.netFail store
          = (Outcome.exit exitUNAVAILABLE
              "An error occurred when trying to fetch configuration", cache))
  ∧ (∀ (cache : String) (store : StoreEnv),
        ParamStore.poll cache PSRemote.netFail store
          = (Outcome.exit exitUNAVAILABLE "Error when fetching parameter", cache)) :=
  ⟨fun _ _ _ => rfl, fun _ _ => rfl⟩

/-- C7 counterexample: in both modes a child process that exits with a
non-zero status does not make the Command hook run return an error value:
it terminates the process with the SOFTWARE exit status, the message
identifying the command. -/
theorem command_nonzero_status_cex :
    Command.run "badcmd" false ⟨true, true, true, false⟩
        = Outcome.exit exitSOFTWARE "Failed to execute cmd: badcmd"
  ∧ (Command.run "badcmd" false ⟨true, true, true, false⟩).isErr = false
  ∧ Command.run "badcmd" true ⟨true, true, true, false⟩
        = Outcome.exit exitSOFTWARE "Failed to execute cmd: badcmd" := by
  decide

/-- C7 amended: in both modes, when the process machinery itself succeeds
and the child exits with a non-zero status, the Command hook run
terminates the process with the SOFTWARE exit status after printing a
message identifying the command, rather than returning an error value or
succeeding. -/
theorem command_nonzero_status_exits (command : String) (pd : Bool) (ex : CmdExec)
    (hs : ex.spawnOk = true) (hw : ex.writeOk = true) (hwa : ex.waitOk = true)
    (hst : ex.statusSuccess = false) :
    Command.run command pd ex
      = Outcome.exit exitSOFTWARE ("Failed to execute cmd: " ++ command) := by
  cases pd <;> simp [Command.run, hs, hw, hwa, hst]

/-- Witness for the amended C7 at a concrete command. -/
theorem command_nonzero_status_exits_witness :
    Command.run "badcmd" true ⟨true, true, true, false⟩
      = Outcome.exit exitSOFTWARE ("Failed to execute cmd: " ++ "badcmd") :=
  command_nonzero_status_exits "badcmd" true ⟨true, true, true, false⟩ rfl rfl rfl rfl

/-- C8: when the first k hooks succeed and hook k fails with an error,
the orchestrator loop runs exactly the hooks up to and including k (the
earlier ones to completion, so their side effects persist), surfaces the
failure of hook k wrapped with its context, and never runs the hooks
after k. -/
theorem hook_pipeline_first_failure (outs : List (Outcome Unit)) (k : Nat)
    (e : String) (hk : k < outs.length)
    (hpre : ∀ i, i < k → outs.getD i (Outcome.ok ()) = Outcome.ok ())
    (hfail : outs.getD k (Outcome.ok ()) = Outcome.err e) :
    check_hook_loop outs = (k + 1, Outcome.err ("Error running hook: " ++ e)) := by
  induction outs generalizing k with
  | nil => exact absurd hk (by simp)
  | cons o rest ih =>
    cases k with
    | zero =>
      simp only [List.getD_cons_zero] at hfail
      subst hfail
      rfl
    | succ k =>
      have ho : o = Outcome.ok () := by
        have := hpre 0 (Nat.succ_pos k)
        simpa using this
      subst ho
      have hrec := ih k (by simpa using hk)
        (fun i hi => by
          have := hpre (i + 1) (Nat.succ_lt_succ hi)
          simpa using this)
        (by simpa using hfail)
      simp [check_hook_loop, hrec]

/-- Witness for C8 at a concrete three-hook list failing at position 2. -/
theorem hook_pipeline_first_failure_witness :
    check_hook_loop [Outcome.ok (), Outcome.err "boom", Outcome.ok ()]
      = (2, Outcome.err ("Error running hook: " ++ "boom")) :=
  hook_pipeline_first_failure [Outcome.ok (), Outcome.err "boom", Outcome.ok ()]
    1 "boom" (by decide) (by decide) (by decide)

end AppCfg
